import Mathlib

/-!
Verification of the preset-validation repository: German tax identifiers
(tax ID, tax number with regional BUFA registry), IBAN and BIC validation.

Strings are embedded as `List Char` (raw input) and `List Nat` (digit
sequences, each element a decimal digit value).  The tax-office registry
(`finanzamtsdaten.ts`) and the country-code table (`country-codes.json`)
are external data files that are not part of the repository core; they are
modelled from the specification below.
-/

/-- Sequences of decimal digit values, the embedding of digit strings. -/
abbrev Digits := List Nat

/-- `s.substring (a, b)` on digit strings: drop `a`, keep up to `b - a`. -/
def sub (l : Digits) (a b : Nat) : Digits := (l.drop a).take (b - a)

/-- Digit value of a decimal digit character (JS `parseInt(c, 10)` / `Number(c)`
on a digit character). -/
def charToDigit (c : Char) : Nat := c.toNat - 48

/-- The decimal digit character for a digit value. -/
def digitChar (n : Nat) : Char := Char.ofNat (48 + n)

/-- JS `replace(/\D+/g, '')` followed by per-character digit parsing:
keep the digit characters, as digit values. -/
def digitsOf (input : List Char) : Digits :=
  (input.filter Char.isDigit).map charToDigit

/-- Characters matched by the JS `\s` class (ASCII part): space, tab,
newline, carriage return, vertical tab, form feed. -/
def jsWhitespace (c : Char) : Bool :=
  c = ' ' || c = '\t' || c = '\n' || c = '\x0d' || c = Char.ofNat 11 || c = Char.ofNat 12

/-- JS `toUpperCase` restricted to ASCII letters. -/
def toUpperAscii (c : Char) : Char :=
  if 97 ≤ c.toNat ∧ c.toNat ≤ 122 then Char.ofNat (c.toNat - 32) else c

/-- `trim()` followed by `replace(/\s/g, '')`: every whitespace character is
removed (the initial trim is subsumed by the global replace). -/
def cleanWs (s : List Char) : List Char :=
  (s.filter (fun c => !jsWhitespace c)).map toUpperAscii

/-- Whitespace stripping without uppercasing (used by the tax-ID validator). -/
def stripWs (s : List Char) : List Char :=
  s.filter (fun c => !jsWhitespace c)

/-- An uppercase ASCII letter (`[A-Z]`). -/
def isUpperAZ (c : Char) : Bool := 65 ≤ c.toNat && c.toNat ≤ 90

/-- `[A-Z0-9]`. -/
def isAlnumAZ (c : Char) : Bool := isUpperAZ c || c.isDigit

/-! ## Checksum engine (`src/tax-number/prufziffernverfahren.ts`) -/

/-- Registry entry: office-number component, checksum procedure selector and
federal-state label (`FinanzamtInfo` in the source). -/
structure FinanzamtInfo where
  finanzamtsnummer : Digits
  verfahren : String
  bundesland : String
deriving DecidableEq, Repr

/-- The registry (`BUFA_MAP`), embedded as an association list in entry
order, keyed by the 4-digit BUFA code. -/
abbrev BufaMap := List (Digits × FinanzamtInfo)

/-- `BUFA_MAP[bufa]`: first entry with the given key, if any. -/
def bufaFind (m : BufaMap) (k : Digits) : Option FinanzamtInfo :=
  (m.find? (fun p => p.1 == k)).map (·.2)

def BERLIN_A_MULTIPLIERS : List Nat := [0, 0, 0, 0, 0, 7, 6, 5, 8, 4, 3, 2]

def BERLIN_B_MULTIPLIERS : List Nat := [0, 0, 2, 9, 0, 8, 7, 6, 5, 4, 3, 2]

/-- Weighted check digit: sum of digit × multiplier over the 12 body digits,
reduced `% 11 % 10`. -/
def computeWeightedCheckDigit (body : Digits) (multipliers : List Nat) : Nat :=
  ((List.zipWith (· * ·) body multipliers).sum % 11) % 10

/-- The Bayern "11er" procedure (also the default): body digits multiplied
alternately by 1 and 2; a product above 9 is replaced by `p % 10 + 1`;
check digit `= (10 - sum % 10) % 10`.  The loop reads only the first 12
characters (`zipWith` with the 12-element base truncates identically). -/
def pruefzifferBayern (elster13 : Digits) : Nat :=
  let base : List Nat := [1, 2, 1, 2, 1, 2, 1, 2, 1, 2, 1, 2]
  let s := (List.zipWith (fun d m => let p := d * m; if p > 9 then p % 10 + 1 else p)
    elster13 base).sum
  (10 - s % 10) % 10

/-- Procedure dispatch (`validatePruefziffer`): body = first 12 digits,
check digit = digit at index 12; four named procedures, any other
`verfahren` falls back to the Bayern procedure. -/
def validatePruefziffer (elster13 : Digits) (info : FinanzamtInfo) : Bool :=
  let body := elster13.take 12
  let checkDigit := elster13.getD 12 0
  if info.verfahren = "BERLIN_A" then
    computeWeightedCheckDigit body BERLIN_A_MULTIPLIERS == checkDigit
  else if info.verfahren = "BERLIN_B" then
    computeWeightedCheckDigit body BERLIN_B_MULTIPLIERS == checkDigit
  else if info.verfahren = "BAYERN_11ER" then
    pruefzifferBayern elster13 == checkDigit
  else if info.verfahren = "NRW" then
    computeWeightedCheckDigit body [0, 3, 2, 1, 0, 7, 6, 5, 4, 3, 2, 1] == checkDigit
  else
    pruefzifferBayern elster13 == checkDigit

/-! ## Normalizer (`normalization.ts`) -/

/-- `normalizeSteuernummer`: empty input is invalid; otherwise strip
non-digits and accept exactly the digit-lengths 10, 11, 12, 13
(empty result for any other length). -/
def normalizeSteuernummer (input : List Char) : Digits :=
  if input = [] then []
  else
    let digits := digitsOf input
    if digits.length = 10 then digits
    else if digits.length = 11 then digits
    else if digits.length = 12 then digits
    else if digits.length = 13 then digits
    else []

/-- `normalizeTo13Digits`: length-specific positional synthesis of the
canonical candidate for a given BUFA code.  The function receives an
already-normalized digit sequence (its own re-strip of non-digits is the
identity there).  `isNRW` tests the state-number prefix "05" of the BUFA. -/
def normalizeTo13Digits (input : Digits) (bufa : Digits) : Option Digits :=
  let digits := input
  let LL := bufa.take 2
  let isNRW := LL = [0, 5]
  if digits.length = 10 then
    let FFin := sub digits 0 2
    if ¬isNRW then
      some (LL ++ FFin ++ [0] ++ sub digits 2 5 ++ sub digits 5 9 ++ digits.drop 9)
    else
      some (LL ++ FFin ++ [0] ++ sub digits 2 6 ++ sub digits 6 10)
  else if digits.length = 11 then
    let FFin := sub digits 0 2
    if ¬isNRW then
      some (LL ++ FFin ++ [0] ++ sub digits 2 5 ++ sub digits 5 9 ++ sub digits 9 11)
    else
      some (LL ++ FFin ++ [0] ++ sub digits 2 6 ++ sub digits 6 11)
  else if digits.length = 12 then
    let LLin := sub digits 0 2
    let FFin := sub digits 2 4
    if ¬isNRW then
      some (LLin ++ FFin ++ [0] ++ sub digits 4 7 ++ sub digits 7 11 ++ sub digits 11 12)
    else
      some (LLin ++ FFin ++ [0] ++ sub digits 4 8 ++ sub digits 8 12)
  else if digits.length = 13 then
    some digits
  else
    none

/-! ## Tax-number validator (`validation-tax-number.ts`) -/

/-- The tagged validation outcome of `validateSteuernummer` and its
helpers: `valid`, and the optional `normalized` / `bufa` / `bundesland` /
`reason` fields. -/
structure SteuerResult where
  valid : Bool
  normalized : Option Digits := none
  bufa : Option Digits := none
  bundesland : Option String := none
  reason : Option String := none
deriving DecidableEq, Repr

/-- `findPossibleBufas`: all registry keys whose entry's
`finanzamtsnummer` equals the given two-digit number, in registry order. -/
def findPossibleBufas (m : BufaMap) (finanzamtNumber : Digits) : List Digits :=
  (m.filter (fun p => p.2.finanzamtsnummer == finanzamtNumber)).map (·.1)

/-- The candidate loop shared by the 10- and 11-digit validators: first
candidate whose synthesized canonical form passes its region's check digit
wins; otherwise the aggregate rejection.  (In the source the registry
lookup inside the loop cannot fail since the candidates are registry keys;
a failed lookup here skips the candidate.) -/
def tryBufas (m : BufaMap) (normalized : Digits) : List Digits → SteuerResult
  | [] =>
    { valid := false, reason := some "Invalid check digit (Prüfziffer) for all possible BUFAs" }
  | bufa :: rest =>
    match normalizeTo13Digits normalized bufa with
    | some converted =>
      match bufaFind m bufa with
      | some info =>
        if validatePruefziffer converted info then
          { valid := true, normalized := some converted, bufa := some bufa,
            bundesland := some info.bundesland }
        else tryBufas m normalized rest
      | none => tryBufas m normalized rest
    | none => tryBufas m normalized rest

/-- `validate10DigitFormat`: all-zeros guard, then the candidate search
keyed on the first two digits. -/
def validate10DigitFormat (m : BufaMap) (normalized : Digits) : SteuerResult :=
  if normalized.all (· = 0) then
    { valid := false, reason := some "Tax number cannot be all zeros" }
  else
    let finanzamtNumber := sub normalized 0 2
    let possibleBufas := findPossibleBufas m finanzamtNumber
    if possibleBufas = [] then
      { valid := false, reason := some "Unknown Finanzamt number - no matching BUFA found" }
    else
      tryBufas m normalized possibleBufas

/-- `validate11DigitFormat`: textually the same flow as the 10-digit case
(the length difference only shows inside `normalizeTo13Digits`). -/
def validate11DigitFormat (m : BufaMap) (normalized : Digits) : SteuerResult :=
  if normalized.all (· = 0) then
    { valid := false, reason := some "Tax number cannot be all zeros" }
  else
    let finanzamtNumber := sub normalized 0 2
    let possibleBufas := findPossibleBufas m finanzamtNumber
    if possibleBufas = [] then
      { valid := false, reason := some "Unknown Finanzamt number - no matching BUFA found" }
    else
      tryBufas m normalized possibleBufas

/-- `validate12DigitFormat`: the BUFA is read directly from the first four
digits. -/
def validate12DigitFormat (m : BufaMap) (normalized : Digits) : SteuerResult :=
  if normalized.all (· = 0) then
    { valid := false, reason := some "Tax number cannot be all zeros" }
  else
    let bufa := sub normalized 0 4
    match bufaFind m bufa with
    | none =>
      { valid := false, reason := some "Unknown BUFA code - not a valid German tax office" }
    | some info =>
      match normalizeTo13Digits normalized bufa with
      | none => { valid := false, reason := some "Cannot convert to 13-digit format" }
      | some converted =>
        if validatePruefziffer converted info then
          { valid := true, normalized := some converted, bufa := some bufa,
            bundesland := some info.bundesland }
        else
          { valid := false, reason := some "Invalid check digit (Prüfziffer)" }

/-- `validate13DigitFormat`: positional region derivation, no all-zeros
guard; on check-digit failure the diagnostic fields stay populated. -/
def validate13DigitFormat (m : BufaMap) (normalized : Digits) : SteuerResult :=
  let landesnummer := sub normalized 0 2
  let finanzamtsnummer := sub normalized 2 4
  let bufa := landesnummer ++ finanzamtsnummer
  match bufaFind m bufa with
  | none => { valid := false, reason := some "Unknown BUFA or Finanzamt" }
  | some info =>
    if validatePruefziffer normalized info then
      { valid := true, normalized := some normalized, bufa := some bufa,
        bundesland := some info.bundesland }
    else
      { valid := false, bufa := some bufa, bundesland := some info.bundesland,
        reason := some "Invalid Prüfziffer" }

/-- Dispatch on the normalized length (the body of `validateSteuernummer`
after normalization). -/
def steuerCore (m : BufaMap) (normalized : Digits) : SteuerResult :=
  if normalized = [] then
    { valid := false, reason := some "Invalid length or characters" }
  else if normalized.length = 10 then validate10DigitFormat m normalized
  else if normalized.length = 11 then validate11DigitFormat m normalized
  else if normalized.length = 12 then validate12DigitFormat m normalized
  else if normalized.length = 13 then validate13DigitFormat m normalized
  else { valid := false, reason := some "Invalid length: must be 10, 11, 12, or 13 digits" }

/-- `validateSteuernummer`: normalize, then dispatch on length. -/
def validateSteuernummer (m : BufaMap) (input : List Char) : SteuerResult :=
  steuerCore m (normalizeSteuernummer input)

/-! ## Tax-ID, IBAN and BIC validators (`preset-validation.helper.ts`) -/

/-- One step of the tax-ID check-digit loop. -/
def taxIdStep (product digit : Nat) : Nat :=
  let s := (digit + product) % 10
  let s := if s = 0 then 10 else s
  (2 * s) % 11

/-- `calculateTaxIdCheckDigit`: running product seeded at 10, one step per
digit, final check `11 - product` with 10 mapped to 0. -/
def calculateTaxIdCheckDigit (taxIdDigits : Digits) : Nat :=
  let product := taxIdDigits.foldl taxIdStep 10
  let checkDigit := 11 - product
  if checkDigit = 10 then 0 else checkDigit

/-- `validateGermanTaxId`: strip whitespace, require exactly 11 digits
(`^\d{11}$`), compare the computed check digit with the 11th digit. -/
def validateGermanTaxId (taxId : List Char) : Bool :=
  let cleaned := stripWs taxId
  if cleaned.length = 11 && cleaned.all Char.isDigit then
    let mainDigits := (cleaned.take 10).map charToDigit
    let providedCheckDigit := charToDigit (cleaned.getD 10 '0')
    calculateTaxIdCheckDigit mainDigits == providedCheckDigit
  else
    false

/-- Modelled from the spec: `country-codes.json` is not under `src/`.  The
spec fixes a static set of ~49 ISO 3166-1 alpha-2 codes eligible for
IBAN/BIC country fields; its examples require DE, GB, FR, ES, IT to be
members and ZZ to be absent.  Codes are embedded as two-character lists. -/
def countryCodes : List (List Char) :=
  [['A','D'], ['A','T'], ['B','A'], ['B','E'], ['B','G'], ['C','H'], ['C','Y'],
   ['C','Z'], ['D','E'], ['D','K'], ['E','E'], ['E','S'], ['F','I'], ['F','O'],
   ['F','R'], ['G','B'], ['G','I'], ['G','L'], ['G','R'], ['H','R'], ['H','U'],
   ['I','E'], ['I','S'], ['I','T'], ['L','I'], ['L','T'], ['L','U'], ['L','V'],
   ['M','C'], ['M','D'], ['M','E'], ['M','K'], ['M','T'], ['N','L'], ['N','O'],
   ['P','L'], ['P','T'], ['R','O'], ['R','S'], ['S','E'], ['S','I'], ['S','K'],
   ['S','M'], ['T','R'], ['U','A'], ['V','A'], ['X','K'], ['A','L'], ['A','Z']]

/-- The IBAN structural regex `^[A-Z]{2}[0-9]{2}[A-Z0-9]+$`. -/
def ibanShape : List Char → Bool
  | a :: b :: c :: d :: rest =>
    isUpperAZ a && isUpperAZ b && c.isDigit && d.isDigit &&
      !rest.isEmpty && rest.all isAlnumAZ
  | _ => false

/-- Letter-to-numeral expansion of the rearranged IBAN: an uppercase letter
contributes the two decimal digits of `charCode - 55` (A=10 … Z=35), any
other character contributes its own digit value. -/
def ibanExpand : List Char → Digits
  | [] => []
  | c :: rest =>
    (if isUpperAZ c then [(c.toNat - 55) / 10, (c.toNat - 55) % 10]
     else [charToDigit c]) ++ ibanExpand rest

/-- Iterative mod-97 reduction `remainder = (remainder * 10 + digit) % 97`. -/
def mod97 (ds : Digits) : Nat := ds.foldl (fun r d => (r * 10 + d) % 97) 0

/-- `validateIBAN`: clean and uppercase, length in [15, 34], structural
regex, country-code membership, then ISO 7064 mod-97 remainder 1 on the
rotated and letter-expanded string. -/
def validateIBAN (iban : List Char) : Bool :=
  let cleaned := cleanWs iban
  if cleaned.length < 15 || cleaned.length > 34 then false
  else if !ibanShape cleaned then false
  else
    let countryCode := cleaned.take 2
    if !countryCodes.contains countryCode then false
    else
      let rearranged := cleaned.drop 4 ++ cleaned.take 4
      let remainder := mod97 (ibanExpand rearranged)
      remainder == 1

/-- The 8-character BIC regex `^[A-Z]{4}[A-Z]{2}[A-Z0-9]{2}$`. -/
def bicShape8 : List Char → Bool
  | [a, b, c, d, e, f, g, h] =>
    isUpperAZ a && isUpperAZ b && isUpperAZ c && isUpperAZ d &&
      isUpperAZ e && isUpperAZ f && isAlnumAZ g && isAlnumAZ h
  | _ => false

/-- The 11-character BIC regex `^[A-Z]{4}[A-Z]{2}[A-Z0-9]{2}[A-Z0-9]{3}$`. -/
def bicShape11 : List Char → Bool
  | [a, b, c, d, e, f, g, h, i, j, k] =>
    isUpperAZ a && isUpperAZ b && isUpperAZ c && isUpperAZ d &&
      isUpperAZ e && isUpperAZ f && isAlnumAZ g && isAlnumAZ h &&
      isAlnumAZ i && isAlnumAZ j && isAlnumAZ k
  | _ => false

/-- `validateBIC`: clean and uppercase, length 8 or 11, structural regex by
length, country code (characters 5-6) in the country-code set. -/
def validateBIC (bic : List Char) : Bool :=
  let cleaned := cleanWs bic
  if cleaned.length ≠ 8 ∧ cleaned.length ≠ 11 then false
  else if cleaned.length = 8 then
    if !bicShape8 cleaned then false
    else countryCodes.contains ((cleaned.drop 4).take 2)
  else
    if !bicShape11 cleaned then false
    else countryCodes.contains ((cleaned.drop 4).take 2)

/-! ## Modelled registry data -/

/-- Modelled from the spec: the tax-office registry (`finanzamtsdaten.ts`,
`BUFA_MAP`) is not under `src/`.  Per the spec's data model each entry is
keyed by a 4-digit code = 2-digit state number ++ 2-digit office number,
carries a checksum-procedure selector and a state label, and the
`finanzamtsnummer` attribute searched by `findPossibleBufas` is the
office-number component of the code (the spec's design notes describe the
candidate search as "search by office-number suffix across all states",
and the round-trip property of §8 requires exactly this).  The spec and
the repository's tests fix: BUFA 1116 is Berlin with procedure BERLIN_A;
state number 05 is NRW with its own procedure; Bayern regions use the
11er procedure; most other regions use the default (standard) procedure;
the keys 0000, 0001, 1199 and 9999 are absent.  This model keeps one
representative entry per procedure class. -/
def BUFA_MAP_MODEL : BufaMap :=
  [([1, 1, 1, 6], ⟨[1, 6], "BERLIN_A", "Berlin"⟩),
   ([1, 1, 1, 3], ⟨[1, 3], "BERLIN_B", "Berlin"⟩),
   ([0, 5, 1, 0], ⟨[1, 0], "NRW", "Nordrhein-Westfalen"⟩),
   ([0, 9, 1, 0], ⟨[1, 0], "BAYERN_11ER", "Bayern"⟩),
   ([2, 6, 4, 0], ⟨[4, 0], "STANDARD", "Hessen"⟩)]

/-- The structural registry invariant from the spec's data model: every
key is a 4-digit code whose office-number component is the entry's
`finanzamtsnummer` attribute. -/
def BufaInv (m : BufaMap) : Prop :=
  ∀ p ∈ m, p.1.length = 4 ∧ (∀ k ∈ p.1, k < 10) ∧ p.2.finanzamtsnummer = sub p.1 2 4

/-! ## Formatting-character insertion -/

/-- `isIns S s s'` holds when `s'` is `s` with characters satisfying `S`
inserted at arbitrary positions. -/
def isIns (S : Char → Bool) : List Char → List Char → Bool
  | [], [] => true
  | _ :: _, [] => false
  | [], c :: l' => S c && isIns S [] l'
  | c0 :: l, c :: l' => (c0 == c && isIns S l l') || (S c && isIns S (c0 :: l) l')

/-- The formatting characters of the tax-number tolerance property:
space, slash, hyphen. -/
def isTaxFmtChar (c : Char) : Bool := c = ' ' || c = '/' || c = '-'

/-! ## Helper lemmas -/

/-- A digit value below 10 round-trips through its character. -/
theorem digitChar_spec : ∀ a < 10, (digitChar a).isDigit = true ∧ charToDigit (digitChar a) = a := by
  decide

theorem digitsOf_map_digitChar (l : Digits) (h : ∀ k ∈ l, k < 10) :
    digitsOf (l.map digitChar) = l := by
  induction l with
  | nil => rfl
  | cons a t ih =>
    have ha := digitChar_spec a (h a (by simp))
    have ht := ih (fun k hk => h k (by simp [hk]))
    simp only [digitsOf, List.map_cons, List.filter_cons, ha.1, if_true]
    simp only [List.map_cons, ha.2, List.cons.injEq, true_and]
    simpa [digitsOf] using ht

theorem normalizeSteuernummer_digits (l : Digits) (h10 : ∀ k ∈ l, k < 10)
    (hlen : l.length = 10 ∨ l.length = 11 ∨ l.length = 12 ∨ l.length = 13) :
    normalizeSteuernummer (l.map digitChar) = l := by
  have hne : l.map digitChar ≠ [] := by
    rcases hlen with h | h | h | h <;>
      · intro hc
        rw [List.map_eq_nil_iff] at hc
        rw [hc] at h
        simp at h
  rw [normalizeSteuernummer, if_neg hne, digitsOf_map_digitChar l h10]
  rcases hlen with h | h | h | h <;> simp [h]

theorem getD_take_of_lt (l : Digits) (n i d : Nat) (h : i < n) :
    (l.take n).getD i d = l.getD i d := by
  induction l generalizing n i with
  | nil => simp
  | cons a t ih =>
    cases n with
    | zero => omega
    | succ k =>
      cases i with
      | zero => simp
      | succ j => simpa [List.take_succ_cons, List.getD_cons_succ] using ih k j (by omega)

/-- Inserting only characters on which `P` is false leaves a `P`-filter
unchanged. -/
theorem filter_eq_of_isIns (S P : Char → Bool) (hSP : ∀ c, S c = true → P c = false) :
    ∀ (l' l : List Char), isIns S l l' = true → l'.filter P = l.filter P := by
  intro l'
  induction l' with
  | nil =>
    intro l h
    cases l with
    | nil => rfl
    | cons a t => simp [isIns] at h
  | cons c rest ih =>
    intro l h
    cases l with
    | nil =>
      simp only [isIns, Bool.and_eq_true] at h
      have := ih [] h.2
      simp [List.filter_cons, hSP c h.1, this]
    | cons c0 t =>
      simp only [isIns, Bool.or_eq_true, Bool.and_eq_true, beq_iff_eq] at h
      rcases h with ⟨hc, hrec⟩ | ⟨hS, hrec⟩
      · subst hc
        have := ih t hrec
        simp [List.filter_cons, this]
      · have := ih (c0 :: t) hrec
        simp [List.filter_cons, hSP c hS, this]

theorem bufaFind_mem (m : BufaMap) (k : Digits) (i : FinanzamtInfo)
    (h : bufaFind m k = some i) : (k, i) ∈ m := by
  unfold bufaFind at h
  cases hf : m.find? (fun p => p.1 == k) with
  | none => rw [hf] at h; simp at h
  | some p =>
    rw [hf] at h
    simp only [Option.map_some', Option.some.injEq] at h
    have hm := List.mem_of_find?_eq_some hf
    have hp := List.find?_some hf
    rcases p with ⟨k', i'⟩
    simp only [beq_iff_eq] at hp
    rw [← h, ← hp]
    exact hm

theorem mem_findPossibleBufas (m : BufaMap) (b fn : Digits) (i : FinanzamtInfo)
    (hmem : (b, i) ∈ m) (hfa : i.finanzamtsnummer = fn) : b ∈ findPossibleBufas m fn := by
  unfold findPossibleBufas
  exact List.mem_map.mpr ⟨(b, i), List.mem_filter.mpr ⟨hmem, by simp [hfa]⟩, rfl⟩

/-- If some candidate in the list converts and passes its region's check
digit, the candidate loop reports success. -/
theorem tryBufas_valid_of_mem (m : BufaMap) (norm : Digits) :
    ∀ (l : List Digits) (b conv : Digits) (info : FinanzamtInfo), b ∈ l →
      normalizeTo13Digits norm b = some conv →
      bufaFind m b = some info → validatePruefziffer conv info = true →
      (tryBufas m norm l).valid = true := by
  intro l
  induction l with
  | nil => intro b conv info hb; simp at hb
  | cons h0 rest ih =>
    intro b conv info hb hconv hfind hpz
    rcases List.mem_cons.mp hb with rfl | hmem
    · simp [tryBufas, hconv, hfind, hpz]
    · cases hc : normalizeTo13Digits norm h0 with
      | none =>
        simp only [tryBufas, hc]
        exact ih b conv info hmem hconv hfind hpz
      | some conv0 =>
        cases hf : bufaFind m h0 with
        | none =>
          simp only [tryBufas, hc, hf]
          exact ih b conv info hmem hconv hfind hpz
        | some info0 =>
          cases hp : validatePruefziffer conv0 info0 with
          | false =>
            simp only [tryBufas, hc, hf, hp, Bool.false_eq_true, if_false]
            exact ih b conv info hmem hconv hfind hpz
          | true => simp [tryBufas, hc, hf, hp]

theorem exists_of_length10 (l : Digits) (h : l.length = 10) :
    ∃ a0 a1 a2 a3 a4 a5 a6 a7 a8 a9,
      l = [a0, a1, a2, a3, a4, a5, a6, a7, a8, a9] := by
  rcases l with _ | ⟨a0, l⟩; · simp only [List.length_nil] at h; omega
  rcases l with _ | ⟨a1, l⟩; · simp only [List.length_cons, List.length_nil] at h; omega
  rcases l with _ | ⟨a2, l⟩; · simp only [List.length_cons, List.length_nil] at h; omega
  rcases l with _ | ⟨a3, l⟩; · simp only [List.length_cons, List.length_nil] at h; omega
  rcases l with _ | ⟨a4, l⟩; · simp only [List.length_cons, List.length_nil] at h; omega
  rcases l with _ | ⟨a5, l⟩; · simp only [List.length_cons, List.length_nil] at h; omega
  rcases l with _ | ⟨a6, l⟩; · simp only [List.length_cons, List.length_nil] at h; omega
  rcases l with _ | ⟨a7, l⟩; · simp only [List.length_cons, List.length_nil] at h; omega
  rcases l with _ | ⟨a8, l⟩; · simp only [List.length_cons, List.length_nil] at h; omega
  rcases l with _ | ⟨a9, l⟩; · simp only [List.length_cons, List.length_nil] at h; omega
  rcases l with _ | ⟨a10, l⟩
  · exact ⟨a0, a1, a2, a3, a4, a5, a6, a7, a8, a9, rfl⟩
  · simp only [List.length_cons, List.length_nil] at h; omega

theorem exists_of_length13 (l : Digits) (h : l.length = 13) :
    ∃ a0 a1 a2 a3 a4 a5 a6 a7 a8 a9 a10 a11 a12,
      l = [a0, a1, a2, a3, a4, a5, a6, a7, a8, a9, a10, a11, a12] := by
  rcases l with _ | ⟨a0, l⟩; · simp only [List.length_nil] at h; omega
  rcases l with _ | ⟨a1, l⟩; · simp only [List.length_cons, List.length_nil] at h; omega
  rcases l with _ | ⟨a2, l⟩; · simp only [List.length_cons, List.length_nil] at h; omega
  rcases l with _ | ⟨a3, l⟩; · simp only [List.length_cons, List.length_nil] at h; omega
  rcases l with _ | ⟨a4, l⟩; · simp only [List.length_cons, List.length_nil] at h; omega
  rcases l with _ | ⟨a5, l⟩; · simp only [List.length_cons, List.length_nil] at h; omega
  rcases l with _ | ⟨a6, l⟩; · simp only [List.length_cons, List.length_nil] at h; omega
  rcases l with _ | ⟨a7, l⟩; · simp only [List.length_cons, List.length_nil] at h; omega
  rcases l with _ | ⟨a8, l⟩; · simp only [List.length_cons, List.length_nil] at h; omega
  rcases l with _ | ⟨a9, l⟩; · simp only [List.length_cons, List.length_nil] at h; omega
  rcases l with _ | ⟨a10, l⟩; · simp only [List.length_cons, List.length_nil] at h; omega
  rcases l with _ | ⟨a11, l⟩; · simp only [List.length_cons, List.length_nil] at h; omega
  rcases l with _ | ⟨a12, l⟩; · simp only [List.length_cons, List.length_nil] at h; omega
  rcases l with _ | ⟨a13, l⟩
  · exact ⟨a0, a1, a2, a3, a4, a5, a6, a7, a8, a9, a10, a11, a12, rfl⟩
  · simp only [List.length_cons, List.length_nil] at h; omega

theorem exists_of_length4 (l : Digits) (h : l.length = 4) :
    ∃ a0 a1 a2 a3, l = [a0, a1, a2, a3] := by
  rcases l with _ | ⟨a0, l⟩; · simp only [List.length_nil] at h; omega
  rcases l with _ | ⟨a1, l⟩; · simp only [List.length_cons, List.length_nil] at h; omega
  rcases l with _ | ⟨a2, l⟩; · simp only [List.length_cons, List.length_nil] at h; omega
  rcases l with _ | ⟨a3, l⟩; · simp only [List.length_cons, List.length_nil] at h; omega
  rcases l with _ | ⟨a4, l⟩
  · exact ⟨a0, a1, a2, a3, rfl⟩
  · simp only [List.length_cons, List.length_nil] at h; omega

/-- On a 10-digit input the NRW and non-NRW insertion rules coincide: the
candidate is `LL ++ FF ++ 0 ++` the remaining eight digits. -/
theorem normalizeTo13Digits_len10 (a0 a1 a2 a3 a4 a5 a6 a7 a8 a9 : Nat) (b : Digits) :
    normalizeTo13Digits [a0, a1, a2, a3, a4, a5, a6, a7, a8, a9] b =
      some (b.take 2 ++ [a0, a1, 0, a2, a3, a4, a5, a6, a7, a8, a9]) := by
  unfold normalizeTo13Digits
  simp only [List.length_cons, List.length_nil]
  norm_num [sub]

/-- On an 11-digit input both insertion rules produce the same 14-element
sequence: `LL ++ FF ++ 0 ++` the remaining nine digits. -/
theorem normalizeTo13Digits_len11 (a0 a1 a2 a3 a4 a5 a6 a7 a8 a9 a10 : Nat) (b : Digits) :
    normalizeTo13Digits [a0, a1, a2, a3, a4, a5, a6, a7, a8, a9, a10] b =
      some (b.take 2 ++ [a0, a1, 0, a2, a3, a4, a5, a6, a7, a8, a9, a10]) := by
  unfold normalizeTo13Digits
  simp only [List.length_cons, List.length_nil]
  norm_num [sub]

/-- `validatePruefziffer` reads only the first 13 digits. -/
theorem validatePruefziffer_take13 (a b : Digits) (info : FinanzamtInfo)
    (h : a.take 13 = b.take 13) :
    validatePruefziffer a info = validatePruefziffer b info := by
  have h12 : a.take 12 = b.take 12 := by
    have h2 : (a.take 13).take 12 = (b.take 13).take 12 := by rw [h]
    simpa [List.take_take] using h2
  have hg : a.getD 12 0 = b.getD 12 0 := by
    rw [← getD_take_of_lt a 13 12 0 (by omega), ← getD_take_of_lt b 13 12 0 (by omega), h]
  have hzip : ∀ (l : Digits) (f : Nat → Nat → Nat),
      List.zipWith f l [1, 2, 1, 2, 1, 2, 1, 2, 1, 2, 1, 2] =
        List.zipWith f (l.take 12) [1, 2, 1, 2, 1, 2, 1, 2, 1, 2, 1, 2] := by
    intro l f
    have h1 : List.zipWith f l [1, 2, 1, 2, 1, 2, 1, 2, 1, 2, 1, 2] =
        (List.zipWith f l [1, 2, 1, 2, 1, 2, 1, 2, 1, 2, 1, 2]).take 12 := by
      rw [List.take_of_length_le]
      simp [List.length_zipWith]
    rw [h1, List.take_zipWith]
    rfl
  have hb : pruefzifferBayern a = pruefzifferBayern b := by
    unfold pruefzifferBayern
    simp only []
    rw [hzip a, hzip b, h12]
  simp only [validatePruefziffer]
  rw [h12, hg, hb]

/-- The digit-length gate of the normalizer, separated from the stripping. -/
def lenGate (digits : Digits) : Digits :=
  if digits.length = 10 then digits
  else if digits.length = 11 then digits
  else if digits.length = 12 then digits
  else if digits.length = 13 then digits
  else []

/-- The normalizer is the length gate applied to the stripped digits (the
source's separate empty-input early return produces the same value). -/
theorem normalizeSteuernummer_eq_gate (input : List Char) :
    normalizeSteuernummer input = lenGate (digitsOf input) := by
  by_cases h : input = []
  · subst h
    simp [normalizeSteuernummer, digitsOf, lenGate]
  · simp [normalizeSteuernummer, h, lenGate]

/-! ## Reference definitions written from the specification text -/

/-- Reference form of the tax-ID check digit, following the spec:
`(11 − product) mod 11`, with a result of 10 mapped to 0 (the iterative
step is worded identically in spec and source and is shared). -/
def calculateTaxIdCheckDigitSpec (ds : Digits) : Nat :=
  let product := ds.foldl taxIdStep 10
  let c := (11 - product) % 11
  if c = 10 then 0 else c

/-- Reference form of the tax-ID validator, following the spec: after
whitespace stripping the input must be exactly 11 decimal digits whose
11th digit equals the computed check digit. -/
def taxIdSpecValid (s : List Char) : Bool :=
  let cleaned := stripWs s
  cleaned.length = 11 && cleaned.all Char.isDigit &&
    (calculateTaxIdCheckDigitSpec ((cleaned.take 10).map charToDigit) ==
      charToDigit (cleaned.getD 10 '0'))

theorem taxIdStep_range (d p : Nat) :
    1 ≤ taxIdStep p d ∧ taxIdStep p d ≤ 10 := by
  have key : ∀ s < 11, 1 ≤ s → 1 ≤ 2 * s % 11 ∧ 2 * s % 11 ≤ 10 := by decide
  unfold taxIdStep
  by_cases h : (d + p) % 10 = 0
  · simp [h]
  · simp only [h, if_false]
    exact key ((d + p) % 10) (by omega) (Nat.one_le_iff_ne_zero.mpr h)

theorem taxIdFold_range (ds : Digits) :
    ∀ p, 1 ≤ p → p ≤ 10 → 1 ≤ ds.foldl taxIdStep p ∧ ds.foldl taxIdStep p ≤ 10 := by
  induction ds with
  | nil => intro p h1 h2; exact ⟨h1, h2⟩
  | cons d t ih =>
    intro p _ _
    have h := taxIdStep_range d p
    simpa [List.foldl_cons] using ih (taxIdStep p d) h.1 h.2

/-- The source's `11 - product` equals the spec's `(11 - product) mod 11`
because the running product always stays in `[1, 10]`. -/
theorem calculateTaxIdCheckDigit_eq_spec (ds : Digits) :
    calculateTaxIdCheckDigit ds = calculateTaxIdCheckDigitSpec ds := by
  have h := taxIdFold_range ds 10 (by omega) (by omega)
  unfold calculateTaxIdCheckDigit calculateTaxIdCheckDigitSpec
  have hm : (11 - ds.foldl taxIdStep 10) % 11 = 11 - ds.foldl taxIdStep 10 :=
    Nat.mod_eq_of_lt (by omega)
  simp only [hm]

/-- Reference form of the IBAN validator, written from the spec as one
conjunction: length in [15, 34]; exactly 2 letters, 2 digits, then
alphanumerics; prefix in the country-code set; ISO 7064 mod-97 remainder 1
on the rotated, letter-expanded string. -/
def ibanSpecValid (s : List Char) : Bool :=
  let cleaned := cleanWs s
  (15 ≤ cleaned.length && cleaned.length ≤ 34) &&
    ((cleaned.take 2).all isUpperAZ && ((cleaned.drop 2).take 2).all Char.isDigit &&
      (cleaned.drop 4).all isAlnumAZ) &&
    countryCodes.contains (cleaned.take 2) &&
    (mod97 (ibanExpand (cleaned.drop 4 ++ cleaned.take 4)) == 1)

/-- For inputs of length at least 15 the anchored regex agrees with the
segment-wise description. -/
theorem ibanShape_eq (c : List Char) (h : 15 ≤ c.length) :
    ibanShape c =
      ((c.take 2).all isUpperAZ && ((c.drop 2).take 2).all Char.isDigit &&
        (c.drop 4).all isAlnumAZ) := by
  rcases c with _ | ⟨a, c⟩; · simp only [List.length_nil] at h; omega
  rcases c with _ | ⟨b, c⟩; · simp only [List.length_cons, List.length_nil] at h; omega
  rcases c with _ | ⟨d2, c⟩; · simp only [List.length_cons, List.length_nil] at h; omega
  rcases c with _ | ⟨d3, c⟩; · simp only [List.length_cons, List.length_nil] at h; omega
  rcases c with _ | ⟨e, c⟩; · simp only [List.length_cons, List.length_nil] at h; omega
  simp [ibanShape, Bool.and_assoc]

/-- Reference per-position adjustment of the spec's "standard" checksum
procedure: even positions keep the digit, odd positions double it, and any
product above 9 has its decimal digits summed. -/
def standardAdjustSpec (i d : Nat) : Nat :=
  let p := if i % 2 = 0 then d else 2 * d
  if p > 9 then p / 10 + p % 10 else p

/-- Reference form of the spec's "standard" checksum procedure over the 12
body digits of a canonical candidate. -/
def pruefzifferStandardSpec (e : Digits) : Nat :=
  (10 - ((List.range 12).map (fun i => standardAdjustSpec i (e.getD i 0))).sum % 10) % 10

theorem exists_of_length11 (l : Digits) (h : l.length = 11) :
    ∃ a0 a1 a2 a3 a4 a5 a6 a7 a8 a9 a10,
      l = [a0, a1, a2, a3, a4, a5, a6, a7, a8, a9, a10] := by
  rcases l with _ | ⟨a0, l⟩; · simp only [List.length_nil] at h; omega
  rcases l with _ | ⟨a1, l⟩; · simp only [List.length_cons, List.length_nil] at h; omega
  rcases l with _ | ⟨a2, l⟩; · simp only [List.length_cons, List.length_nil] at h; omega
  rcases l with _ | ⟨a3, l⟩; · simp only [List.length_cons, List.length_nil] at h; omega
  rcases l with _ | ⟨a4, l⟩; · simp only [List.length_cons, List.length_nil] at h; omega
  rcases l with _ | ⟨a5, l⟩; · simp only [List.length_cons, List.length_nil] at h; omega
  rcases l with _ | ⟨a6, l⟩; · simp only [List.length_cons, List.length_nil] at h; omega
  rcases l with _ | ⟨a7, l⟩; · simp only [List.length_cons, List.length_nil] at h; omega
  rcases l with _ | ⟨a8, l⟩; · simp only [List.length_cons, List.length_nil] at h; omega
  rcases l with _ | ⟨a9, l⟩; · simp only [List.length_cons, List.length_nil] at h; omega
  rcases l with _ | ⟨a10, l⟩; · simp only [List.length_cons, List.length_nil] at h; omega
  rcases l with _ | ⟨a11, l⟩
  · exact ⟨a0, a1, a2, a3, a4, a5, a6, a7, a8, a9, a10, rfl⟩
  · simp only [List.length_cons, List.length_nil] at h; omega

/-! ## Claim theorems -/

/-- Claim C1, counterexample: for an 11-digit input the synthesized
candidate has 14 digits, not 13 — in both the non-NRW variant (BUFA 1116)
and the NRW variant (BUFA 0510). -/
theorem C1_counterexample :
    (normalizeTo13Digits [1, 1, 6, 0, 8, 7, 4, 1, 2, 3, 4] [1, 1, 1, 6]).map List.length =
      some 14 ∧
    (normalizeTo13Digits [1, 0, 6, 0, 8, 7, 4, 1, 2, 3, 4] [0, 5, 1, 0]).map List.length =
      some 14 := by
  decide

/-- Claim C1, amended: for every candidate regional code (a 4-digit BUFA)
the candidate synthesized by the normalizer has exactly 13 digits for
10- and 12-digit inputs, but exactly 14 digits for 11-digit inputs (both
the NRW and non-NRW variants). -/
theorem C1_amended_lengths (d b : Digits) (hb : b.length = 4) :
    ((d.length = 10 ∨ d.length = 12) → (normalizeTo13Digits d b).map List.length = some 13) ∧
    (d.length = 11 → (normalizeTo13Digits d b).map List.length = some 14) := by
  constructor
  · rintro (h | h)
    · obtain ⟨a0, a1, a2, a3, a4, a5, a6, a7, a8, a9, rfl⟩ := exists_of_length10 d h
      rw [normalizeTo13Digits_len10]
      simp [hb, List.length_take]
    · simp only [normalizeTo13Digits, h]
      norm_num
      split <;> simp [sub, h, hb]
  · intro h
    obtain ⟨a0, a1, a2, a3, a4, a5, a6, a7, a8, a9, a10, rfl⟩ := exists_of_length11 d h
    rw [normalizeTo13Digits_len11]
    simp [hb, List.length_take]

/-- Witness for C1_amended_lengths at concrete 10- and 11-digit inputs. -/
theorem C1_witness :
    (normalizeTo13Digits [1, 1, 6, 0, 8, 7, 4, 1, 2, 0] [1, 1, 1, 6]).map List.length =
      some 13 ∧
    (normalizeTo13Digits [1, 1, 6, 0, 8, 7, 4, 1, 2, 0, 5] [1, 1, 1, 6]).map List.length =
      some 14 :=
  ⟨(C1_amended_lengths [1, 1, 6, 0, 8, 7, 4, 1, 2, 0] [1, 1, 1, 6] (by decide)).1
      (Or.inl (by decide)),
   (C1_amended_lengths [1, 1, 6, 0, 8, 7, 4, 1, 2, 0, 5] [1, 1, 1, 6] (by decide)).2
      (by decide)⟩

/-- Claim C2, counterexample: the all-zeros 13-digit input is rejected,
but with the unknown-BUFA reason, not the "all zeros" reason — the
13-digit path has no all-zeros guard. -/
theorem C2_counterexample :
    (validateSteuernummer BUFA_MAP_MODEL
        ['0', '0', '0', '0', '0', '0', '0', '0', '0', '0', '0', '0', '0']).reason =
      some "Unknown BUFA or Finanzamt" ∧
    (validateSteuernummer BUFA_MAP_MODEL
        ['0', '0', '0', '0', '0', '0', '0', '0', '0', '0', '0', '0', '0']).reason ≠
      some "Tax number cannot be all zeros" := by
  decide

/-- Claim C2, amended: all-zero digit strings of length 10, 11 and 12 are
rejected with the "all zeros" reason; the all-zero 13-digit string is also
rejected (valid is false), but with the "Unknown BUFA or Finanzamt" reason,
since the 13-digit path derives the region before any zero check and the
registry has no entry 0000. -/
theorem C2_amended_allzeros (m : BufaMap) (h0 : bufaFind m [0, 0, 0, 0] = none) :
    validateSteuernummer m ['0', '0', '0', '0', '0', '0', '0', '0', '0', '0'] =
      ⟨false, none, none, none, some "Tax number cannot be all zeros"⟩ ∧
    validateSteuernummer m ['0', '0', '0', '0', '0', '0', '0', '0', '0', '0', '0'] =
      ⟨false, none, none, none, some "Tax number cannot be all zeros"⟩ ∧
    validateSteuernummer m ['0', '0', '0', '0', '0', '0', '0', '0', '0', '0', '0', '0'] =
      ⟨false, none, none, none, some "Tax number cannot be all zeros"⟩ ∧
    validateSteuernummer m ['0', '0', '0', '0', '0', '0', '0', '0', '0', '0', '0', '0', '0'] =
      ⟨false, none, none, none, some "Unknown BUFA or Finanzamt"⟩ := by
  have h1 : normalizeSteuernummer ['0', '0', '0', '0', '0', '0', '0', '0', '0', '0'] =
      [0, 0, 0, 0, 0, 0, 0, 0, 0, 0] := by decide
  have h2 : normalizeSteuernummer ['0', '0', '0', '0', '0', '0', '0', '0', '0', '0', '0'] =
      [0, 0, 0, 0, 0, 0, 0, 0, 0, 0, 0] := by decide
  have h3 : normalizeSteuernummer
      ['0', '0', '0', '0', '0', '0', '0', '0', '0', '0', '0', '0'] =
      [0, 0, 0, 0, 0, 0, 0, 0, 0, 0, 0, 0] := by decide
  have h4 : normalizeSteuernummer
      ['0', '0', '0', '0', '0', '0', '0', '0', '0', '0', '0', '0', '0'] =
      [0, 0, 0, 0, 0, 0, 0, 0, 0, 0, 0, 0, 0] := by decide
  refine ⟨?_, ?_, ?_, ?_⟩
  · rw [validateSteuernummer, h1]
    simp [steuerCore, validate10DigitFormat]
  · rw [validateSteuernummer, h2]
    simp [steuerCore, validate11DigitFormat]
  · rw [validateSteuernummer, h3]
    simp [steuerCore, validate12DigitFormat]
  · rw [validateSteuernummer, h4]
    simp [steuerCore, validate13DigitFormat, sub, h0]

/-- Witness for C2_amended_allzeros at the modelled registry. -/
theorem C2_witness :
    validateSteuernummer BUFA_MAP_MODEL ['0', '0', '0', '0', '0', '0', '0', '0', '0', '0'] =
      ⟨false, none, none, none, some "Tax number cannot be all zeros"⟩ :=
  (C2_amended_allzeros BUFA_MAP_MODEL (by decide)).1

/-- Claim C3, counterexample: for the 10-digit input 1612345678 (first two
digits 16) the candidate set actually tried is the office-suffix match
[1116], while the set of registry entries whose state-number prefix is 16
is empty; the two sets differ. -/
theorem C3_counterexample :
    findPossibleBufas BUFA_MAP_MODEL (sub [1, 6, 1, 2, 3, 4, 5, 6, 7, 8] 0 2) =
      [[1, 1, 1, 6]] ∧
    (BUFA_MAP_MODEL.filter
        (fun p => p.1.take 2 == sub [1, 6, 1, 2, 3, 4, 5, 6, 7, 8] 0 2)).map Prod.fst =
      [] := by
  decide

/-- Claim C3, amended: for a 10- or 11-digit input the set of candidate
regional codes tried by the validator (`findPossibleBufas` applied to the
input's first two digits) is exactly the set of registry entries whose
office-number component — the `finanzamtsnummer` attribute, the last two
digits of the code — equals the input's first two digits, not the entries
whose state-number prefix does. -/
theorem C3_amended_candidates (m : BufaMap) (hinv : BufaInv m) (d : Digits) :
    findPossibleBufas m (sub d 0 2) =
      (m.filter (fun p => sub p.1 2 4 == sub d 0 2)).map Prod.fst := by
  induction m with
  | nil => rfl
  | cons p rest ih =>
    have hfa := (hinv p (List.mem_cons_self p rest)).2.2
    have hrest : BufaInv rest := fun q hq => hinv q (List.mem_cons_of_mem p hq)
    have ih2 := ih hrest
    simp only [findPossibleBufas, List.filter_cons] at ih2 ⊢
    rw [hfa]
    split
    · simp only [List.map_cons, ih2]
    · exact ih2

/-- Witness for C3_amended_candidates at the modelled registry. -/
theorem C3_witness :
    findPossibleBufas BUFA_MAP_MODEL (sub [1, 6, 1, 2, 3, 4, 5, 6, 7, 8] 0 2) =
      (BUFA_MAP_MODEL.filter
        (fun p => sub p.1 2 4 == sub [1, 6, 1, 2, 3, 4, 5, 6, 7, 8] 0 2)).map Prod.fst :=
  C3_amended_candidates BUFA_MAP_MODEL (by unfold BufaInv; decide) [1, 6, 1, 2, 3, 4, 5, 6, 7, 8]

/-- Claim C4, counterexample: inserting a slash into a valid IBAN flips the
outcome — the IBAN validator strips only whitespace, not slashes or
hyphens. -/
theorem C4_counterexample :
    validateIBAN ("DE89370400440532013000".toList) = true ∧
    isIns isTaxFmtChar ("DE89370400440532013000".toList) ("DE89/370400440532013000".toList) =
      true ∧
    validateIBAN ("DE89/370400440532013000".toList) = false := by
  decide

/-- Claim C4, amended: the tax-number outcome is unchanged (as a whole, for
every input) under insertion of spaces, slashes or hyphens anywhere; the
IBAN and BIC outcomes are unchanged under insertion of whitespace only —
inserted slashes or hyphens reach their structural regexes and can flip
the outcome. -/
theorem C4_amended_insertion :
    (∀ (m : BufaMap) (s s' : List Char), isIns isTaxFmtChar s s' = true →
      validateSteuernummer m s' = validateSteuernummer m s) ∧
    (∀ s s' : List Char, isIns jsWhitespace s s' = true → validateIBAN s' = validateIBAN s) ∧
    (∀ s s' : List Char, isIns jsWhitespace s s' = true → validateBIC s' = validateBIC s) := by
  have hfmt : ∀ c, isTaxFmtChar c = true → Char.isDigit c = false := by
    intro c h
    simp only [isTaxFmtChar, Bool.or_eq_true, decide_eq_true_eq] at h
    rcases h with (rfl | rfl) | rfl <;> decide
  have hws : ∀ c, jsWhitespace c = true → (!jsWhitespace c) = false := by
    intro c h
    rw [h]
    rfl
  refine ⟨?_, ?_, ?_⟩
  · intro m s s' h
    have hd : digitsOf s' = digitsOf s := by
      unfold digitsOf
      rw [filter_eq_of_isIns isTaxFmtChar Char.isDigit hfmt s' s h]
    rw [validateSteuernummer, validateSteuernummer,
      normalizeSteuernummer_eq_gate, normalizeSteuernummer_eq_gate, hd]
  · intro s s' h
    have hcw : cleanWs s' = cleanWs s := by
      unfold cleanWs
      rw [filter_eq_of_isIns jsWhitespace (fun c => !jsWhitespace c) hws s' s h]
    simp only [validateIBAN, hcw]
  · intro s s' h
    have hcw : cleanWs s' = cleanWs s := by
      unfold cleanWs
      rw [filter_eq_of_isIns jsWhitespace (fun c => !jsWhitespace c) hws s' s h]
    simp only [validateBIC, hcw]

/-- Witness for C4_amended_insertion: a formatted tax number and a spaced
IBAN and BIC validate exactly as their unformatted equivalents. -/
theorem C4_witness :
    validateSteuernummer BUFA_MAP_MODEL ("11/160/87412".toList) =
      validateSteuernummer BUFA_MAP_MODEL ("1116087412".toList) ∧
    validateIBAN ("DE89 3704 0044 0532 0130 00".toList) =
      validateIBAN ("DE89370400440532013000".toList) ∧
    validateBIC ("DEUT DE FF".toList) = validateBIC ("DEUTDEFF".toList) :=
  ⟨C4_amended_insertion.1 BUFA_MAP_MODEL ("1116087412".toList) ("11/160/87412".toList)
      (by decide),
   C4_amended_insertion.2.1 ("DE89370400440532013000".toList)
      ("DE89 3704 0044 0532 0130 00".toList) (by decide),
   C4_amended_insertion.2.2 ("DEUTDEFF".toList) ("DEUT DE FF".toList) (by decide)⟩

/-- Claim C7: the tax-ID validator equals the spec's reference form (after
whitespace removal, exactly 11 digits whose last digit is the check digit
of the iterative mod-11 algorithm); the check digit of 8609574271 is 9, so
86095742719 validates and any other final digit is rejected. -/
theorem C7_tax_id :
    (∀ s : List Char, validateGermanTaxId s = taxIdSpecValid s) ∧
    calculateTaxIdCheckDigit (digitsOf "8609574271".toList) = 9 ∧
    validateGermanTaxId ("86095742719".toList) = true ∧
    (∀ x, x < 10 → x ≠ 9 →
      validateGermanTaxId ("8609574271".toList ++ [digitChar x]) = false) := by
  refine ⟨?_, by decide, by decide, by decide⟩
  intro s
  simp only [validateGermanTaxId, taxIdSpecValid, calculateTaxIdCheckDigit_eq_spec]
  split
  · next hcond => rw [hcond, Bool.true_and]
  · next hcond =>
    rw [Bool.not_eq_true] at hcond
    rw [hcond, Bool.false_and]

/-- Witness for C7_tax_id: the mutated-check-digit conjunct applied at
digit 3. -/
theorem C7_witness :
    validateGermanTaxId ("8609574271".toList ++ [digitChar 3]) = false :=
  C7_tax_id.2.2.2 3 (by decide) (by decide)

/-- Claim C9: on a 13-digit input whose derived region is in the registry,
checksum failure yields valid:false with reason "Invalid Prüfziffer" and
the bufa / bundesland diagnostics populated; checksum success yields
valid:true with the canonical form equal to the input unchanged, together
with the same diagnostics. -/
theorem C9_diagnostics (m : BufaMap) (n : Digits) (info : FinanzamtInfo)
    (hlen : n.length = 13) (hdig : ∀ k ∈ n, k < 10)
    (hfind : bufaFind m (sub n 0 2 ++ sub n 2 4) = some info) :
    (validatePruefziffer n info = false →
      validateSteuernummer m (n.map digitChar) =
        ⟨false, none, some (sub n 0 2 ++ sub n 2 4), some info.bundesland,
          some "Invalid Prüfziffer"⟩) ∧
    (validatePruefziffer n info = true →
      validateSteuernummer m (n.map digitChar) =
        ⟨true, some n, some (sub n 0 2 ++ sub n 2 4), some info.bundesland, none⟩) := by
  have hn : normalizeSteuernummer (n.map digitChar) = n :=
    normalizeSteuernummer_digits n hdig (by omega)
  have hne : ¬(n = []) := by
    intro hc
    rw [hc] at hlen
    simp at hlen
  have hcore : validateSteuernummer m (n.map digitChar) = validate13DigitFormat m n := by
    rw [validateSteuernummer, hn, steuerCore]
    simp [hne, hlen]
  constructor <;> intro hpz <;> rw [hcore] <;> simp [validate13DigitFormat, hfind, hpz]

/-- Witness for C9_diagnostics: 1116012345678 passes the BERLIN_A check
digit and validates with its own canonical form; 1116012345679 fails it
and keeps the diagnostics. -/
theorem C9_witness :
    validateSteuernummer BUFA_MAP_MODEL
        ([1, 1, 1, 6, 0, 1, 2, 3, 4, 5, 6, 7, 8].map digitChar) =
      ⟨true, some [1, 1, 1, 6, 0, 1, 2, 3, 4, 5, 6, 7, 8], some [1, 1, 1, 6],
        some "Berlin", none⟩ ∧
    validateSteuernummer BUFA_MAP_MODEL
        ([1, 1, 1, 6, 0, 1, 2, 3, 4, 5, 6, 7, 9].map digitChar) =
      ⟨false, none, some [1, 1, 1, 6], some "Berlin", some "Invalid Prüfziffer"⟩ :=
  ⟨(C9_diagnostics BUFA_MAP_MODEL [1, 1, 1, 6, 0, 1, 2, 3, 4, 5, 6, 7, 8]
      ⟨[1, 6], "BERLIN_A", "Berlin"⟩ (by decide) (by decide) (by decide)).2 (by decide),
   (C9_diagnostics BUFA_MAP_MODEL [1, 1, 1, 6, 0, 1, 2, 3, 4, 5, 6, 7, 9]
      ⟨[1, 6], "BERLIN_A", "Berlin"⟩ (by decide) (by decide) (by decide)).1 (by decide)⟩

/-- The code's default (Bayern) procedure computes the spec's reference
"standard" check digit on any 13-digit body of decimal digits. -/
theorem pruefzifferBayern_eq_standardSpec (e : Digits) (hlen : e.length = 13)
    (hdig : ∀ k ∈ e, k < 10) :
    pruefzifferBayern e = pruefzifferStandardSpec e := by
  have heven : ∀ d < 10, (if 9 < d then d % 10 + 1 else d) =
      (if 9 < d then d / 10 + d % 10 else d) := by decide
  have hodd : ∀ d < 10, (if 9 < d * 2 then d * 2 % 10 + 1 else d * 2) =
      (if 9 < 2 * d then 2 * d / 10 + 2 * d % 10 else 2 * d) := by decide
  obtain ⟨a0, a1, a2, a3, a4, a5, a6, a7, a8, a9, a10, a11, a12, rfl⟩ :=
    exists_of_length13 e hlen
  have h0 := hdig a0 (by simp)
  have h1 := hdig a1 (by simp)
  have h2 := hdig a2 (by simp)
  have h3 := hdig a3 (by simp)
  have h4 := hdig a4 (by simp)
  have h5 := hdig a5 (by simp)
  have h6 := hdig a6 (by simp)
  have h7 := hdig a7 (by simp)
  have h8 := hdig a8 (by simp)
  have h9 := hdig a9 (by simp)
  have h10 := hdig a10 (by simp)
  have h11 := hdig a11 (by simp)
  simp only [pruefzifferBayern, pruefzifferStandardSpec, standardAdjustSpec]
  norm_num [List.range_succ]
  rw [heven a0 h0, hodd a1 h1, heven a2 h2, hodd a3 h3, heven a4 h4, hodd a5 h5,
    heven a6 h6, hodd a7 h7, heven a8 h8, hodd a9 h9, heven a10 h10, hodd a11 h11]

/-- Claim C6: any procedure name other than the four named ones selects the
default procedure, which computes exactly the spec's reference "standard"
check digit and compares it with the 13th digit; and the code's reduction
`(p % 10) + 1` agrees with decimal digit-summing for every product of a
digit with 2. -/
theorem C6_standard_procedure :
    (∀ (info : FinanzamtInfo) (e : Digits),
      info.verfahren ≠ "BERLIN_A" → info.verfahren ≠ "BERLIN_B" →
      info.verfahren ≠ "BAYERN_11ER" → info.verfahren ≠ "NRW" →
      e.length = 13 → (∀ k ∈ e, k < 10) →
      validatePruefziffer e info = (pruefzifferStandardSpec e == e.getD 12 0)) ∧
    (∀ d < 10, (if 2 * d > 9 then (2 * d) % 10 + 1 else 2 * d) =
      (if 2 * d > 9 then (2 * d) / 10 + (2 * d) % 10 else 2 * d)) := by
  refine ⟨?_, by decide⟩
  intro info e hv1 hv2 hv3 hv4 hlen hdig
  simp only [validatePruefziffer, hv1, hv2, hv3, hv4, if_false]
  rw [pruefzifferBayern_eq_standardSpec e hlen hdig]

/-- Witness for C6_standard_procedure at the modelled standard-procedure
region 2640 and the body 2640012345674. -/
theorem C6_witness :
    validatePruefziffer [2, 6, 4, 0, 0, 1, 2, 3, 4, 5, 6, 7, 4]
        ⟨[4, 0], "STANDARD", "Hessen"⟩ =
      (pruefzifferStandardSpec [2, 6, 4, 0, 0, 1, 2, 3, 4, 5, 6, 7, 4] ==
        [2, 6, 4, 0, 0, 1, 2, 3, 4, 5, 6, 7, 4].getD 12 0) :=
  C6_standard_procedure.1 ⟨[4, 0], "STANDARD", "Hessen"⟩
    [2, 6, 4, 0, 0, 1, 2, 3, 4, 5, 6, 7, 4] (by decide) (by decide) (by decide) (by decide)
    (by decide) (by decide)

/-- Claim C10: the IBAN validator returns true exactly under the spec's
description — after whitespace stripping and uppercasing: length in
[15, 34], two letters then two digits then alphanumerics, prefix in the
country-code set, and iterative mod-97 remainder 1 on the rotated,
letter-expanded numeral string. -/
theorem C10_iban : ∀ s : List Char, validateIBAN s = ibanSpecValid s := by
  intro s
  by_cases h1 : (cleanWs s).length < 15
  · have h1b : ¬ 15 ≤ (cleanWs s).length := by omega
    simp [validateIBAN, ibanSpecValid, h1, h1b]
  by_cases h2 : (cleanWs s).length > 34
  · have h2b : ¬ (cleanWs s).length ≤ 34 := by omega
    simp [validateIBAN, ibanSpecValid, h2, h2b]
  have hsh := ibanShape_eq (cleanWs s) (by omega)
  have h1b : 15 ≤ (cleanWs s).length := by omega
  have h2b : (cleanWs s).length ≤ 34 := by omega
  by_cases h3 : ibanShape (cleanWs s) = true
  · by_cases h4 : countryCodes.contains ((cleanWs s).take 2) = true
    · simp [validateIBAN, ibanSpecValid, h1, h2, h1b, h2b, ← hsh, h3, h4,
        Bool.and_assoc]
    · simp [validateIBAN, ibanSpecValid, h1, h2, h1b, h2b, ← hsh, h3,
        Bool.eq_false_iff.mpr h4, Bool.and_assoc]
  · simp [validateIBAN, ibanSpecValid, h1, h2, h1b, h2b, ← hsh,
      Bool.eq_false_iff.mpr h3, Bool.and_assoc]

/-- The 10-digit success path: if the all-zeros guard passes and some
candidate converts and passes its region's check digit, the 10-digit
validator reports success. -/
theorem validate10_valid_of (m : BufaMap) (norm : Digits)
    (hz : norm.all (· = 0) = false) (b conv : Digits) (info : FinanzamtInfo)
    (hb : b ∈ findPossibleBufas m (sub norm 0 2))
    (hconv : normalizeTo13Digits norm b = some conv)
    (hfind : bufaFind m b = some info)
    (hpz : validatePruefziffer conv info = true) :
    (validate10DigitFormat m norm).valid = true := by
  simp only [validate10DigitFormat, hz, Bool.false_eq_true, if_false]
  rw [if_neg (List.ne_nil_of_mem hb)]
  exact tryBufas_valid_of_mem m norm _ b conv info hb hconv hfind hpz

/-- The 10-digit "old format" projection of a 13-digit canonical number:
drop the 2-digit state number and the filler digit, keep office number,
district, sequence and check digit. -/
def tenDigitProjection (n : Digits) : Digits := sub n 2 4 ++ sub n 5 13

/-- Claim C8: a 13-digit canonical number (filler digit 0, region in the
registry, check digit valid, projection not all zeros) round-trips: its
region is among the candidates found for its 10-digit projection, the
synthesis for that candidate rebuilds the original number exactly, and the
validator accepts the projection. -/
theorem C8_roundtrip (m : BufaMap) (hinv : BufaInv m) (n : Digits) (info : FinanzamtInfo)
    (hlen : n.length = 13) (hdig : ∀ k ∈ n, k < 10) (hfill : n.getD 4 0 = 0)
    (hfind : bufaFind m (sub n 0 2 ++ sub n 2 4) = some info)
    (hpz : validatePruefziffer n info = true)
    (hz : (tenDigitProjection n).all (· = 0) = false) :
    (sub n 0 2 ++ sub n 2 4) ∈ findPossibleBufas m (sub (tenDigitProjection n) 0 2) ∧
    normalizeTo13Digits (tenDigitProjection n) (sub n 0 2 ++ sub n 2 4) = some n ∧
    (validateSteuernummer m ((tenDigitProjection n).map digitChar)).valid = true := by
  obtain ⟨a0, a1, a2, a3, a4, a5, a6, a7, a8, a9, a10, a11, a12, rfl⟩ :=
    exists_of_length13 n hlen
  have ha4 : a4 = 0 := by simpa using hfill
  subst ha4
  have hmem := bufaFind_mem m _ info hfind
  have hfa := (hinv _ hmem).2.2
  have hmem1 : [a0, a1, a2, a3] ∈ findPossibleBufas m [a2, a3] :=
    mem_findPossibleBufas m [a0, a1, a2, a3] [a2, a3] info hmem hfa
  have hconv : normalizeTo13Digits
      (tenDigitProjection [a0, a1, a2, a3, 0, a5, a6, a7, a8, a9, a10, a11, a12])
      (sub [a0, a1, a2, a3, 0, a5, a6, a7, a8, a9, a10, a11, a12] 0 2 ++
        sub [a0, a1, a2, a3, 0, a5, a6, a7, a8, a9, a10, a11, a12] 2 4) =
      some [a0, a1, a2, a3, 0, a5, a6, a7, a8, a9, a10, a11, a12] := by
    show normalizeTo13Digits [a2, a3, a5, a6, a7, a8, a9, a10, a11, a12] [a0, a1, a2, a3] = _
    rw [normalizeTo13Digits_len10]
    rfl
  refine ⟨hmem1, hconv, ?_⟩
  have hdp : ∀ k ∈ ([a2, a3, a5, a6, a7, a8, a9, a10, a11, a12] : Digits), k < 10 := by
    intro k hk
    simp only [List.mem_cons, List.not_mem_nil, or_false] at hk
    rcases hk with rfl | rfl | rfl | rfl | rfl | rfl | rfl | rfl | rfl | rfl <;>
      exact hdig _ (by simp)
  have hn10 : normalizeSteuernummer
      ((tenDigitProjection [a0, a1, a2, a3, 0, a5, a6, a7, a8, a9, a10, a11, a12]).map
        digitChar) = [a2, a3, a5, a6, a7, a8, a9, a10, a11, a12] :=
    normalizeSteuernummer_digits _ hdp (Or.inl rfl)
  rw [validateSteuernummer, hn10, steuerCore]
  have hz2 : ([a2, a3, a5, a6, a7, a8, a9, a10, a11, a12] : Digits).all (· = 0) = false := hz
  have hmain := validate10_valid_of m [a2, a3, a5, a6, a7, a8, a9, a10, a11, a12] hz2
    [a0, a1, a2, a3] [a0, a1, a2, a3, 0, a5, a6, a7, a8, a9, a10, a11, a12] info hmem1 hconv
    hfind hpz
  simpa using hmain

/-- Witness for C8_roundtrip: the valid Berlin number 1116012345678
projects to 1612345678, whose candidate search rebuilds it and accepts. -/
theorem C8_witness :
    [1, 1, 1, 6] ∈ findPossibleBufas BUFA_MAP_MODEL
        (sub (tenDigitProjection [1, 1, 1, 6, 0, 1, 2, 3, 4, 5, 6, 7, 8]) 0 2) ∧
    normalizeTo13Digits (tenDigitProjection [1, 1, 1, 6, 0, 1, 2, 3, 4, 5, 6, 7, 8])
        [1, 1, 1, 6] = some [1, 1, 1, 6, 0, 1, 2, 3, 4, 5, 6, 7, 8] ∧
    (validateSteuernummer BUFA_MAP_MODEL
        ((tenDigitProjection [1, 1, 1, 6, 0, 1, 2, 3, 4, 5, 6, 7, 8]).map digitChar)).valid =
      true :=
  C8_roundtrip BUFA_MAP_MODEL (by unfold BufaInv; decide)
    [1, 1, 1, 6, 0, 1, 2, 3, 4, 5, 6, 7, 8] ⟨[1, 6], "BERLIN_A", "Berlin"⟩ (by decide)
    (by decide) (by decide) (by decide) (by decide) (by decide)

/-- The four outcome fields the last input digit cannot influence on the
11-digit path (the `normalized` field does retain it). -/
def diagFields (r : SteuerResult) : Bool × Option String × Option Digits × Option String :=
  (r.valid, r.reason, r.bufa, r.bundesland)

theorem findPossibleBufas_mem_keys (m : BufaMap) (fn b : Digits)
    (hb : b ∈ findPossibleBufas m fn) : ∃ i, (b, i) ∈ m := by
  unfold findPossibleBufas at hb
  obtain ⟨p, hp, rfl⟩ := List.mem_map.mp hb
  exact ⟨p.2, (List.mem_filter.mp hp).1⟩

/-- Candidate loop on an 11-digit input: over 4-digit candidates the four
diagnostic fields do not depend on the 11th input digit, because every
synthesized candidate has 14 digits and the check-digit engine reads only
the first 13. -/
theorem tryBufas_diag (m : BufaMap) (t0 t1 t2 t3 t4 t5 t6 t7 t8 t9 x y : Nat) :
    ∀ P : List Digits, (∀ b ∈ P, b.length = 4) →
      diagFields (tryBufas m [t0, t1, t2, t3, t4, t5, t6, t7, t8, t9, x] P) =
        diagFields (tryBufas m [t0, t1, t2, t3, t4, t5, t6, t7, t8, t9, y] P) := by
  intro P
  induction P with
  | nil => intro _; rfl
  | cons b rest ih =>
    intro hP
    have hb4 := hP b (by simp)
    have hrest : ∀ q ∈ rest, q.length = 4 := fun q hq => hP q (by simp [hq])
    obtain ⟨b0, b1, b2, b3, rfl⟩ := exists_of_length4 b hb4
    have hcx := normalizeTo13Digits_len11 t0 t1 t2 t3 t4 t5 t6 t7 t8 t9 x [b0, b1, b2, b3]
    have hcy := normalizeTo13Digits_len11 t0 t1 t2 t3 t4 t5 t6 t7 t8 t9 y [b0, b1, b2, b3]
    cases hf : bufaFind m [b0, b1, b2, b3] with
    | none =>
      simp only [tryBufas, hcx, hcy, hf]
      exact ih hrest
    | some i =>
      have hpzeq : validatePruefziffer
          (List.take 2 [b0, b1, b2, b3] ++ [t0, t1, 0, t2, t3, t4, t5, t6, t7, t8, t9, x]) i =
          validatePruefziffer
          (List.take 2 [b0, b1, b2, b3] ++ [t0, t1, 0, t2, t3, t4, t5, t6, t7, t8, t9, y]) i :=
        validatePruefziffer_take13 _ _ i rfl
      cases hv : validatePruefziffer
          (List.take 2 [b0, b1, b2, b3] ++ [t0, t1, 0, t2, t3, t4, t5, t6, t7, t8, t9, x]) i with
      | false =>
        have hv2 : validatePruefziffer
            (List.take 2 [b0, b1, b2, b3] ++ [t0, t1, 0, t2, t3, t4, t5, t6, t7, t8, t9, y]) i =
            false := hpzeq ▸ hv
        simp only [tryBufas, hcx, hcy, hf, hv, hv2, Bool.false_eq_true, if_false]
        exact ih hrest
      | true =>
        have hv2 : validatePruefziffer
            (List.take 2 [b0, b1, b2, b3] ++ [t0, t1, 0, t2, t3, t4, t5, t6, t7, t8, t9, y]) i =
            true := hpzeq ▸ hv
        simp only [tryBufas, hcx, hcy, hf, hv, hv2, if_true]
        rfl

/-- Claim C5, counterexample: on the all-zeros corner the two 11-digit
inputs 00000000000 and 00000000001 both fail but with different reasons,
so "the same reason on failure" does not hold as stated. -/
theorem C5_counterexample :
    (validateSteuernummer BUFA_MAP_MODEL
        (List.map digitChar [0, 0, 0, 0, 0, 0, 0, 0, 0, 0, 0])).valid =
      (validateSteuernummer BUFA_MAP_MODEL
        (List.map digitChar [0, 0, 0, 0, 0, 0, 0, 0, 0, 0, 1])).valid ∧
    (validateSteuernummer BUFA_MAP_MODEL
        (List.map digitChar [0, 0, 0, 0, 0, 0, 0, 0, 0, 0, 0])).reason =
      some "Tax number cannot be all zeros" ∧
    (validateSteuernummer BUFA_MAP_MODEL
        (List.map digitChar [0, 0, 0, 0, 0, 0, 0, 0, 0, 0, 1])).reason =
      some "Unknown Finanzamt number - no matching BUFA found" ∧
    (validateSteuernummer BUFA_MAP_MODEL
        (List.map digitChar [0, 0, 0, 0, 0, 0, 0, 0, 0, 0, 0])).reason ≠
      (validateSteuernummer BUFA_MAP_MODEL
        (List.map digitChar [0, 0, 0, 0, 0, 0, 0, 0, 0, 0, 1])).reason := by
  decide

/-- Claim C5, amended: for 11-digit digit strings that are not all zeros
(in either variant), replacing the 11th digit changes none of valid,
reason, bufa, bundesland — the synthesized candidates are 14 digits long
and the check-digit engine reads only digits 0 through 12.  (When exactly
one variant is all zeros, both still fail but the reasons differ.) -/
theorem C5_amended_lastdigit (m : BufaMap) (hinv : BufaInv m) (t : Digits) (x y : Nat)
    (ht : t.length = 10) (hdig : ∀ k ∈ t, k < 10) (hx : x < 10) (hy : y < 10)
    (hzx : (t ++ [x]).all (· = 0) = false) (hzy : (t ++ [y]).all (· = 0) = false) :
    diagFields (validateSteuernummer m ((t ++ [x]).map digitChar)) =
      diagFields (validateSteuernummer m ((t ++ [y]).map digitChar)) := by
  obtain ⟨t0, t1, t2, t3, t4, t5, t6, t7, t8, t9, rfl⟩ := exists_of_length10 t ht
  have hdx : ∀ k ∈ ([t0, t1, t2, t3, t4, t5, t6, t7, t8, t9] ++ [x] : Digits), k < 10 := by
    intro k hk
    simp only [List.mem_append, List.mem_cons, List.not_mem_nil, or_false] at hk
    rcases hk with (rfl | rfl | rfl | rfl | rfl | rfl | rfl | rfl | rfl | rfl) | rfl <;>
      first
      | assumption
      | exact hdig _ (by simp)
  have hdy : ∀ k ∈ ([t0, t1, t2, t3, t4, t5, t6, t7, t8, t9] ++ [y] : Digits), k < 10 := by
    intro k hk
    simp only [List.mem_append, List.mem_cons, List.not_mem_nil, or_false] at hk
    rcases hk with (rfl | rfl | rfl | rfl | rfl | rfl | rfl | rfl | rfl | rfl) | rfl <;>
      first
      | assumption
      | exact hdig _ (by simp)
  have hnsx := normalizeSteuernummer_digits _ hdx (Or.inr (Or.inl rfl))
  have hnsy := normalizeSteuernummer_digits _ hdy (Or.inr (Or.inl rfl))
  rw [validateSteuernummer, validateSteuernummer, hnsx, hnsy, steuerCore, steuerCore]
  simp only [List.cons_append, List.nil_append] at hzx hzy ⊢
  simp only [List.length_cons, List.length_nil, List.cons_ne_nil, if_false,
    reduceIte]
  norm_num
  simp only [validate11DigitFormat, hzx, hzy, Bool.false_eq_true, if_false]
  rw [show sub [t0, t1, t2, t3, t4, t5, t6, t7, t8, t9, x] 0 2 = [t0, t1] from rfl,
    show sub [t0, t1, t2, t3, t4, t5, t6, t7, t8, t9, y] 0 2 = [t0, t1] from rfl]
  by_cases hP : findPossibleBufas m [t0, t1] = []
  · rw [if_pos hP, if_pos hP]
  · rw [if_neg hP, if_neg hP]
    have hkeys : ∀ b ∈ findPossibleBufas m [t0, t1], b.length = 4 := by
      intro b hb
      obtain ⟨i, hbi⟩ := findPossibleBufas_mem_keys m [t0, t1] b hb
      exact (hinv _ hbi).1
    exact tryBufas_diag m t0 t1 t2 t3 t4 t5 t6 t7 t8 t9 x y
      (findPossibleBufas m [t0, t1]) hkeys

/-- Witness for C5_amended_lastdigit at the modelled registry, with the
first ten digits 1116087412 and final digits 5 and 7. -/
theorem C5_witness :
    diagFields (validateSteuernummer BUFA_MAP_MODEL
        (([1, 1, 1, 6, 0, 8, 7, 4, 1, 2] ++ [5]).map digitChar)) =
      diagFields (validateSteuernummer BUFA_MAP_MODEL
        (([1, 1, 1, 6, 0, 8, 7, 4, 1, 2] ++ [7]).map digitChar)) :=
  C5_amended_lastdigit BUFA_MAP_MODEL (by unfold BufaInv; decide)
    [1, 1, 1, 6, 0, 8, 7, 4, 1, 2] 5 7 (by decide) (by decide) (by decide) (by decide)
    (by decide) (by decide)
